import Mathlib

/-!
# Verification of the Unity bundle normalization & typed extraction pipeline

Shallow embedding of the Python sources under `src/unity-asset-extract/scripts/`
(`strip_cfs.py`, `extract_assets.py`, `extract_textures.py`) together with
proofs and refutations of the specification's claims.

Bytes are modelled as `Nat`, files as `List Nat`.  The SHA-1 function from
`hashlib` is an external collaborator and is passed as a parameter; none of
the control flow of `strip_cfs.py` depends on its actual value beyond
equality with the stored digest.
-/

set_option autoImplicit false

namespace UnityExtract

/-! ## Header normalizer (`strip_cfs.py`) -/

/-- `CFS_MAGIC = b"UnityCFS"` (strip_cfs.py line 19). -/
def CFS_MAGIC : List Nat := [0x55, 0x6E, 0x69, 0x74, 0x79, 0x43, 0x46, 0x53]

/-- `CFS_HEADER_SIZE = 32` (strip_cfs.py line 20). -/
def CFS_HEADER_SIZE : Nat := 32

/-- `UNITYFS_MAGIC = b"UnityFS"` (strip_cfs.py line 21). -/
def UNITYFS_MAGIC : List Nat := [0x55, 0x6E, 0x69, 0x74, 0x79, 0x46, 0x53]

/-- Result of one `strip_cfs_header` call: the returned boolean, the bytes
written to `output_path`, and the two possible warnings printed on the way
(payload not starting with `UnityFS`; SHA-1 mismatch). -/
structure StripResult where
  stripped : Bool
  output : List Nat
  warnNotUnityFS : Bool
  warnShaMismatch : Bool
  deriving Repr, DecidableEq

/-- `strip_cfs_header(input_path, output_path)` (strip_cfs.py lines 34-70),
parameterized by the external `hashlib.sha1(·).digest()` function.

The file is read as `input`.  `f.read(8)` is `input.take 8`; when it equals
the CFS magic the code unpacks 4 more bytes as a version with
`struct.unpack("<I", f.read(4))`, which raises `struct.error` when fewer
than 4 bytes remain (modelled as `.error ()`), reads a 20-byte digest
(possibly short: `(input.drop 12).take 20`), takes the rest as payload,
warns when the payload does not start with `UnityFS`, warns when the
recomputed SHA-1 differs from the stored digest, writes the payload and
returns `True`.  Otherwise the whole input is copied and `False` returned. -/
def strip_cfs_header (sha1 : List Nat → List Nat) (input : List Nat) :
    Except Unit StripResult :=
  if input.take 8 = CFS_MAGIC then
    if input.length < 12 then
      .error ()
    else
      let storedSha := (input.drop 12).take 20
      let data := input.drop CFS_HEADER_SIZE
      let warnFS := decide (¬ data.take 7 = UNITYFS_MAGIC)
      let warnSha := decide (¬ sha1 data = storedSha)
      .ok ⟨true, data, warnFS, warnSha⟩
  else
    .ok ⟨false, input, false, false⟩

/-- A stand-in for the external SHA-1 collaborator, used only to evaluate
the model at concrete inputs (the control flow only compares its output
with the stored digest). -/
def sha1const : List Nat → List Nat := fun _ => List.replicate 20 0

/-- Pass-through behaviour: when the first 8 bytes are not the CFS magic the
input is copied verbatim, `False` is returned and no warning is printed
(strip_cfs.py lines 63-70). -/
theorem strip_cfs_header_passthrough (sha1 : List Nat → List Nat)
    (input : List Nat) (h : input.take 8 ≠ CFS_MAGIC) :
    strip_cfs_header sha1 input = .ok ⟨false, input, false, false⟩ := by
  simp [strip_cfs_header, h]

/-- Stripping behaviour: when the first 8 bytes are the CFS magic and at
least 12 bytes are present, the header is dropped and `True` returned
(strip_cfs.py lines 42-62). -/
theorem strip_cfs_header_strips (sha1 : List Nat → List Nat)
    (input : List Nat) (hm : input.take 8 = CFS_MAGIC)
    (hl : 12 ≤ input.length) :
    strip_cfs_header sha1 input =
      .ok ⟨true, input.drop 32,
        decide (¬ (input.drop 32).take 7 = UNITYFS_MAGIC),
        decide (¬ sha1 (input.drop 32) = (input.drop 12).take 20)⟩ := by
  simp [strip_cfs_header, hm, CFS_HEADER_SIZE, Nat.not_lt.mpr hl]

/-! ### C1 -/

/-- A CFS-magic input whose payload does not start with `UnityFS`:
magic ++ version 1 ++ 20 zero bytes ++ payload `[0x58]` (the letter `X`). -/
def c1BadInput : List Nat :=
  CFS_MAGIC ++ [1, 0, 0, 0] ++ List.replicate 20 0 ++ [0x58]

/-- A CFS-magic input shorter than 12 bytes: `struct.unpack` raises. -/
def c1ShortInput : List Nat := CFS_MAGIC ++ [0, 0, 0]

/-- C1 counterexample.  The claim "for every input whose first 8 bytes equal
the alternate magic, `normalize` returns true and the output's first bytes
equal the standard container magic" fails: (a) on `c1BadInput` the call
returns `True` but the written payload is `[0x58]`, which does not start
with `UnityFS` (only a warning is printed); (b) on `c1ShortInput` the call
raises `struct.error` instead of returning `True`. -/
theorem c1_counterexample :
    c1BadInput.take 8 = CFS_MAGIC ∧
    (∃ r, strip_cfs_header sha1const c1BadInput = .ok r ∧
      r.stripped = true ∧ r.output = [0x58] ∧
      ¬ r.output.take 7 = UNITYFS_MAGIC) ∧
    c1ShortInput.take 8 = CFS_MAGIC ∧
    strip_cfs_header sha1const c1ShortInput = .error () := by
  refine ⟨by decide, ⟨⟨true, [0x58], true, false⟩, by rfl, rfl, rfl, by decide⟩,
    by decide, by rfl⟩

/-- C1 (amended): for every input of length ≥ 12 whose first 8 bytes equal
the alternate magic, `normalize` returns true and writes the input with its
first 32 bytes removed, so the output length is the input length minus 32;
the output begins with the standard container magic exactly when the
payload after the 32-byte header does (otherwise only a warning is
printed). -/
theorem c1_strip_drops_header (sha1 : List Nat → List Nat)
    (input : List Nat) (hm : input.take 8 = CFS_MAGIC)
    (hl : 12 ≤ input.length) :
    ∃ r, strip_cfs_header sha1 input = .ok r ∧
      r.stripped = true ∧
      r.output = input.drop 32 ∧
      r.output.length = input.length - 32 ∧
      (r.output.take 7 = UNITYFS_MAGIC ↔ (input.drop 32).take 7 = UNITYFS_MAGIC) := by
  refine ⟨_, strip_cfs_header_strips sha1 input hm hl, rfl, rfl, ?_, Iff.rfl⟩
  simp

/-- C1 witness: the amended claim evaluated on a concrete well-formed CFS
bundle whose payload is `UnityFS` followed by a zero byte. -/
theorem c1_witness :
    ∃ r, strip_cfs_header sha1const
        (CFS_MAGIC ++ [1, 0, 0, 0] ++ List.replicate 20 0 ++ (UNITYFS_MAGIC ++ [0])) = .ok r ∧
      r.stripped = true ∧
      r.output = (CFS_MAGIC ++ [1, 0, 0, 0] ++ List.replicate 20 0 ++ (UNITYFS_MAGIC ++ [0])).drop 32 ∧
      r.output.length = (CFS_MAGIC ++ [1, 0, 0, 0] ++ List.replicate 20 0 ++ (UNITYFS_MAGIC ++ [0])).length - 32 ∧
      (r.output.take 7 = UNITYFS_MAGIC ↔
        ((CFS_MAGIC ++ [1, 0, 0, 0] ++ List.replicate 20 0 ++ (UNITYFS_MAGIC ++ [0])).drop 32).take 7 = UNITYFS_MAGIC) :=
  c1_strip_drops_header sha1const _ (by decide) (by decide)

/-! ### C3 -/

/-- C3: for every input whose first 8 bytes do not equal the alternate
magic, `normalize` writes an output byte-identical to the input and returns
`false` (strip_cfs.py lines 63-70). -/
theorem c3_passthrough (sha1 : List Nat → List Nat)
    (input : List Nat) (h : input.take 8 ≠ CFS_MAGIC) :
    strip_cfs_header sha1 input = .ok ⟨false, input, false, false⟩ :=
  strip_cfs_header_passthrough sha1 input h

/-- C3 witness: pass-through on the concrete input `[1, 2, 3]`. -/
theorem c3_witness :
    strip_cfs_header sha1const [1, 2, 3] = .ok ⟨false, [1, 2, 3], false, false⟩ :=
  c3_passthrough sha1const [1, 2, 3] (by decide)

/-! ### C8 -/

/-- A doubly wrapped input: a CFS header whose payload is itself a complete
CFS-magic block (magic ++ version ++ 20 zero bytes). -/
def c8NestedInput : List Nat :=
  CFS_MAGIC ++ [1, 0, 0, 0] ++ List.replicate 20 0 ++
    (CFS_MAGIC ++ [1, 0, 0, 0] ++ List.replicate 20 0)

/-- C8 counterexample.  Running `normalize` a second time on the output of
a first run is not always a pass-through: on `c8NestedInput` the first run
strips and returns `True`, and the second run on its output strips again
(returning `True`, with an output that is not byte-identical to its
input), because the first run's payload itself begins with the alternate
magic. -/
theorem c8_counterexample :
    ∃ r₁ r₂, strip_cfs_header sha1const c8NestedInput = .ok r₁ ∧
      r₁.stripped = true ∧
      strip_cfs_header sha1const r₁.output = .ok r₂ ∧
      r₂.stripped = true ∧ r₂.output ≠ r₁.output := by
  refine ⟨⟨true, CFS_MAGIC ++ [1, 0, 0, 0] ++ List.replicate 20 0, true, false⟩,
    ⟨true, [], true, false⟩, by rfl, rfl, by rfl, rfl, by decide⟩

/-- C8 (amended): a second `normalize` run on the output of a first run is
a no-op pass-through (returns `false`, output byte-identical to its input)
provided that output does not itself begin with the alternate magic — in
particular whenever the first run produced a standard container payload. -/
theorem c8_second_run_passthrough (sha1 sha1' : List Nat → List Nat)
    (input : List Nat) (r : StripResult)
    (h₁ : strip_cfs_header sha1 input = .ok r)
    (h₂ : r.output.take 8 ≠ CFS_MAGIC) :
    strip_cfs_header sha1' r.output = .ok ⟨false, r.output, false, false⟩ :=
  strip_cfs_header_passthrough sha1' r.output h₂

/-- C8 witness: strip a concrete CFS bundle with `UnityFS` payload, then
run `normalize` again on the result. -/
theorem c8_witness :
    strip_cfs_header sha1const
        ((CFS_MAGIC ++ [1, 0, 0, 0] ++ List.replicate 20 0 ++ (UNITYFS_MAGIC ++ [0])).drop 32) =
      .ok ⟨false, (CFS_MAGIC ++ [1, 0, 0, 0] ++ List.replicate 20 0 ++ (UNITYFS_MAGIC ++ [0])).drop 32,
        false, false⟩ :=
  c8_second_run_passthrough sha1const sha1const
    (CFS_MAGIC ++ [1, 0, 0, 0] ++ List.replicate 20 0 ++ (UNITYFS_MAGIC ++ [0]))
    ⟨true, (CFS_MAGIC ++ [1, 0, 0, 0] ++ List.replicate 20 0 ++ (UNITYFS_MAGIC ++ [0])).drop 32,
      false, false⟩
    (by rfl) (by decide)

/-! ### C9 -/

/-- C9: on an input carrying the alternate header whose stored 20-byte
digest differs from the digest recomputed over the payload, `normalize`
sets the mismatch warning, still writes the payload verbatim, and returns
`true`; the mismatch never aborts (the result is `.ok`, never `.error`)
(strip_cfs.py lines 54-62). -/
theorem c9_sha_mismatch_warns_only (sha1 : List Nat → List Nat)
    (input : List Nat) (hm : input.take 8 = CFS_MAGIC)
    (hl : 12 ≤ input.length)
    (hsha : sha1 (input.drop 32) ≠ (input.drop 12).take 20) :
    ∃ r, strip_cfs_header sha1 input = .ok r ∧
      r.stripped = true ∧ r.output = input.drop 32 ∧
      r.warnShaMismatch = true := by
  refine ⟨_, strip_cfs_header_strips sha1 input hm hl, rfl, rfl, ?_⟩
  simpa using hsha

/-- C9 witness: a concrete CFS bundle whose stored digest (20 bytes of
`0x11`) differs from `sha1const` of the payload. -/
theorem c9_witness :
    ∃ r, strip_cfs_header sha1const
        (CFS_MAGIC ++ [1, 0, 0, 0] ++ List.replicate 20 0x11 ++ (UNITYFS_MAGIC ++ [0])) = .ok r ∧
      r.stripped = true ∧
      r.output = (CFS_MAGIC ++ [1, 0, 0, 0] ++ List.replicate 20 0x11 ++ (UNITYFS_MAGIC ++ [0])).drop 32 ∧
      r.warnShaMismatch = true :=
  c9_sha_mismatch_warns_only sha1const _ (by decide) (by decide) (by decide)

/-! ## Bundle discovery (`extract_assets.py` lines 180-197) -/

/-- One regular file seen by `Path.rglob("*")`: its full path (used for the
final `sorted(...)`), its `Path.suffix`, and its `stat().st_size`. -/
structure FileEntry where
  path : String
  suffix : String
  size : Nat
  deriving Repr, DecidableEq

/-- `extensions = {".bundle", ".unity3d", ".assets", ".resource"}`
(extract_assets.py line 186). -/
def BUNDLE_EXTENSIONS : List String := [".bundle", ".unity3d", ".assets", ".resource"]

/-- Python's `str.lower()` applied to a suffix, modelled by mapping
`Char.toLower` over the characters (extensionally `String.toLower`, stated
character-wise so that the kernel can evaluate it). -/
def pyLower (s : String) : String := String.mk (s.data.map Char.toLower)

/-- The per-file test of extract_assets.py line 190:
`f.suffix.lower() in extensions or (not f.suffix and f.stat().st_size > 100)`. -/
def isBundleCandidate (f : FileEntry) : Bool :=
  decide (pyLower f.suffix ∈ BUNDLE_EXTENSIONS) || (f.suffix == "" && decide (100 < f.size))

/-- Ordered insertion by path, used to model Python's `sorted(bundles)`. -/
def insertByPath (f : FileEntry) : List FileEntry → List FileEntry
  | [] => [f]
  | g :: gs => if f.path ≤ g.path then f :: g :: gs else g :: insertByPath f gs

/-- Insertion sort by path, modelling `sorted(bundles)` (line 197). -/
def sortByPath : List FileEntry → List FileEntry
  | [] => []
  | f :: fs => insertByPath f (sortByPath fs)

/-- `find_bundles(bundle_dir)` (extract_assets.py lines 180-197) applied to
the recursive listing of regular files under `bundle_dir`: the
extension/size pass, then the all-files fallback when it found nothing,
then lexicographic sorting. -/
def find_bundles (files : List FileEntry) : List FileEntry :=
  let bundles := files.filter isBundleCandidate
  let bundles :=
    if bundles.isEmpty then files.filter (fun f => decide (100 < f.size)) else bundles
  sortByPath bundles

theorem mem_insertByPath (x f : FileEntry) (l : List FileEntry) :
    x ∈ insertByPath f l ↔ x = f ∨ x ∈ l := by
  induction l with
  | nil => simp [insertByPath]
  | cons g gs ih =>
    by_cases h : f.path ≤ g.path <;> simp [insertByPath, h, ih] <;> tauto

theorem mem_sortByPath (x : FileEntry) (l : List FileEntry) :
    x ∈ sortByPath l ↔ x ∈ l := by
  induction l with
  | nil => simp [sortByPath]
  | cons f fs ih => simp [sortByPath, mem_insertByPath, ih]

/-! ### C5 -/

/-- C5 counterexample.  The claim "discover(root) returns exactly the files
whose extension is in the known set plus extensionless files above the size
threshold" fails: a directory holding a single 200-byte `.txt` file makes
the extension pass empty, so the all-files fallback (line 195) returns the
`.txt` file even though it satisfies neither condition. -/
theorem c5_counterexample :
    (⟨"a.txt", ".txt", 200⟩ : FileEntry) ∈ find_bundles [⟨"a.txt", ".txt", 200⟩] ∧
    isBundleCandidate ⟨"a.txt", ".txt", 200⟩ = false := by
  constructor
  · exact (mem_sortByPath _ _).mpr (by decide)
  · decide

/-- C5 (amended): when at least one file passes the extension/size test,
discovery returns exactly the files passing it; when no file does,
discovery falls back to returning exactly the files larger than 100 bytes.
The cited scenario (one `.bundle` file, one 0-byte extensionless file)
falls in the first case and returns only the `.bundle` file. -/
theorem c5_discovery (files : List FileEntry) (f : FileEntry) :
    (files.filter isBundleCandidate ≠ [] →
      (f ∈ find_bundles files ↔ f ∈ files ∧ isBundleCandidate f = true)) ∧
    (files.filter isBundleCandidate = [] →
      (f ∈ find_bundles files ↔ f ∈ files ∧ 100 < f.size)) := by
  constructor
  · intro h
    rw [find_bundles]
    simp only [List.isEmpty_iff, h, if_false, mem_sortByPath, List.mem_filter]
  · intro h
    rw [find_bundles]
    simp only [List.isEmpty_iff, h, if_true, mem_sortByPath, List.mem_filter]
    simp

/-- C5 witness: discovery over one `.bundle` file (50 bytes) and one 0-byte
extensionless file returns the `.bundle` file and not the empty file. -/
theorem c5_witness :
    ((⟨"x.bundle", ".bundle", 50⟩ : FileEntry) ∈
      find_bundles [⟨"x.bundle", ".bundle", 50⟩, ⟨"marker", "", 0⟩]) ∧
    ¬ ((⟨"marker", "", 0⟩ : FileEntry) ∈
      find_bundles [⟨"x.bundle", ".bundle", 50⟩, ⟨"marker", "", 0⟩]) := by
  constructor
  · exact ((c5_discovery [⟨"x.bundle", ".bundle", 50⟩, ⟨"marker", "", 0⟩]
      ⟨"x.bundle", ".bundle", 50⟩).1 (by decide)).mpr (by decide)
  · intro h
    have := ((c5_discovery [⟨"x.bundle", ".bundle", 50⟩, ⟨"marker", "", 0⟩]
      ⟨"marker", "", 0⟩).1 (by decide)).mp h
    exact absurd this.2 (by decide)

/-! ## Extraction engine statistics (`extract_assets.py` lines 34-37, 170-177, 224-231, 247-264) -/

/-- `SUPPORTED_TYPES` (extract_assets.py lines 34-37). -/
def SUPPORTED_TYPES : List String :=
  ["Texture2D", "Mesh", "AudioClip", "TextAsset",
   "Font", "Sprite", "AnimationClip", "MonoBehaviour"]

/-- The keys of the `EXTRACTORS` dispatch table (extract_assets.py lines
170-177).  Note `AnimationClip` and `MonoBehaviour` are supported as
requestable types but have no registered exporter. -/
def EXTRACTOR_TYPES : List String :=
  ["Texture2D", "Mesh", "AudioClip", "TextAsset", "Font", "Sprite"]

/-- An object yielded by `env.objects`: the engine reads only
`obj.type.name` and (inside exporters) `obj.path_id`. -/
structure AssetObject where
  typeName : String
  pathId : Int
  deriving Repr, DecidableEq

/-- Outcome of one `EXTRACTORS[type_name](obj, output_subdir)` call as seen
by the engine: returned `True`, returned `False`, or raised (caught at
extract_assets.py lines 263-264). -/
inductive ExportResult where
  | success
  | failure
  | raised
  deriving Repr, DecidableEq

/-- One per-type bucket of the `stats` defaultdict:
`{"success": 0, "failed": 0}` (extract_assets.py line 244). -/
structure SF where
  success : Nat
  failed : Nat
  deriving Repr, DecidableEq

/-- The `stats` defaultdict, as an association list keyed by type name. -/
abbrev Stats := List (String × SF)

/-- Increment one field of a bucket. -/
def bumpSF (sf : SF) (ok : Bool) : SF :=
  if ok then ⟨sf.success + 1, sf.failed⟩ else ⟨sf.success, sf.failed + 1⟩

/-- `stats[type_name]["success"] += 1` / `stats[type_name]["failed"] += 1`
with defaultdict semantics: a missing key is created with zero counts. -/
def statsAdd (t : String) (ok : Bool) : Stats → Stats
  | [] => [(t, bumpSF ⟨0, 0⟩ ok)]
  | (u, sf) :: rest =>
      if u = t then (u, bumpSF sf ok) :: rest else (u, sf) :: statsAdd t ok rest

/-- The bucket recorded for type `t` (zero counts when absent). -/
def bucket (stats : Stats) (t : String) : SF := (stats.lookup t).getD ⟨0, 0⟩

/-- Sum of success and failure counts across all types (the engine's
summary totals, extract_assets.py lines 276-284). -/
def totalCount (stats : Stats) : Nat := (stats.map (fun p => p.2.success + p.2.failed)).sum

/-- The engine's dispatch test (extract_assets.py line 255):
`type_name in extract_types and type_name in EXTRACTORS`. -/
def matchesExtraction (extractTypes : List String) (obj : AssetObject) : Bool :=
  decide (obj.typeName ∈ extractTypes) && decide (obj.typeName ∈ EXTRACTOR_TYPES)

/-- The body of the per-object loop (extract_assets.py lines 253-264),
parameterized by the outcome of the exporter invocation. -/
def processObject (extractTypes : List String) (runE : AssetObject → ExportResult)
    (stats : Stats) (obj : AssetObject) : Stats :=
  if matchesExtraction extractTypes obj then
    match runE obj with
    | .success => statsAdd obj.typeName true stats
    | .failure => statsAdd obj.typeName false stats
    | .raised => statsAdd obj.typeName false stats
  else stats

/-- One iteration of the per-bundle loop (extract_assets.py lines 251-269):
`UnityPy.load` either yields a list of objects or raises, in which case the
exception is caught and the bundle contributes nothing to the statistics. -/
def processBundle (extractTypes : List String) (runE : AssetObject → ExportResult)
    (stats : Stats) : Option (List AssetObject) → Stats
  | none => stats
  | some objs => objs.foldl (processObject extractTypes runE) stats

/-- The whole extraction loop (extract_assets.py lines 244-264), starting
from the empty defaultdict. -/
def runExtraction (extractTypes : List String) (runE : AssetObject → ExportResult)
    (bundles : List (Option (List AssetObject))) : Stats :=
  bundles.foldl (processBundle extractTypes runE) []

/-- Argument handling for `--types` (extract_assets.py lines 224-231):
absent means all extractor keys; present means the given list intersected
with `SUPPORTED_TYPES` (unknown names only produce a warning). -/
def parseExtractTypes : Option (List String) → List String
  | none => EXTRACTOR_TYPES
  | some ts => ts.filter (fun t => decide (t ∈ SUPPORTED_TYPES))

/-- All objects of the bundles that loaded successfully. -/
def loadedObjects (bundles : List (Option (List AssetObject))) : List AssetObject :=
  (bundles.filterMap id).flatten

theorem beq_export_ss : (ExportResult.success == ExportResult.success) = true := rfl

theorem beq_export_fs : (ExportResult.failure == ExportResult.success) = false := rfl

theorem beq_export_rs : (ExportResult.raised == ExportResult.success) = false := rfl

theorem lookup_statsAdd_self (t : String) (ok : Bool) (s : Stats) :
    (statsAdd t ok s).lookup t = some (bumpSF (bucket s t) ok) := by
  induction s with
  | nil => simp [statsAdd, bucket]
  | cons p rest ih =>
    obtain ⟨u, sf⟩ := p
    by_cases h : u = t
    · subst h
      simp [statsAdd, bucket]
    · have hb : (t == u) = false := beq_eq_false_iff_ne.mpr (Ne.symm h)
      simp only [statsAdd, if_neg h, List.lookup, hb, bucket] at ih ⊢
      exact ih

theorem bucket_statsAdd_ne (t u : String) (ok : Bool) (s : Stats) (h : u ≠ t) :
    bucket (statsAdd t ok s) u = bucket s u := by
  have hb : (u == t) = false := beq_eq_false_iff_ne.mpr h
  induction s with
  | nil => simp [statsAdd, bucket, List.lookup, hb]
  | cons p rest ih =>
    obtain ⟨v, sf⟩ := p
    by_cases hv : v = t
    · subst hv
      simp [statsAdd, bucket, List.lookup, hb]
    · simp only [statsAdd, if_neg hv, bucket, List.lookup] at ih ⊢
      cases hc : u == v <;> simp only [hc] at ih ⊢
      exact ih

theorem totalCount_statsAdd (t : String) (ok : Bool) (s : Stats) :
    totalCount (statsAdd t ok s) = totalCount s + 1 := by
  induction s with
  | nil => cases ok <;> simp [statsAdd, totalCount, bumpSF]
  | cons p rest ih =>
    obtain ⟨u, sf⟩ := p
    by_cases h : u = t
    · subst h
      cases ok <;> simp [statsAdd, totalCount, bumpSF] <;> omega
    · simp [statsAdd, h, totalCount] at ih ⊢
      omega

theorem totalCount_processObject (extractTypes : List String)
    (runE : AssetObject → ExportResult) (stats : Stats) (obj : AssetObject) :
    totalCount (processObject extractTypes runE stats obj) =
      totalCount stats + (if matchesExtraction extractTypes obj then 1 else 0) := by
  rw [processObject]
  by_cases h : matchesExtraction extractTypes obj
  · cases hr : runE obj <;> simp [h, hr, totalCount_statsAdd]
  · simp [h]

theorem totalCount_foldl_objects (extractTypes : List String)
    (runE : AssetObject → ExportResult) (objs : List AssetObject) (stats : Stats) :
    totalCount (objs.foldl (processObject extractTypes runE) stats) =
      totalCount stats + objs.countP (matchesExtraction extractTypes) := by
  induction objs generalizing stats with
  | nil => simp
  | cons o os ih =>
    rw [List.foldl_cons, ih, totalCount_processObject, List.countP_cons]
    by_cases h : matchesExtraction extractTypes o <;> simp [h] <;> omega

theorem totalCount_foldl_bundles (extractTypes : List String)
    (runE : AssetObject → ExportResult)
    (bundles : List (Option (List AssetObject))) (stats : Stats) :
    totalCount (bundles.foldl (processBundle extractTypes runE) stats) =
      totalCount stats + (loadedObjects bundles).countP (matchesExtraction extractTypes) := by
  induction bundles generalizing stats with
  | nil => simp [loadedObjects]
  | cons b bs ih =>
    cases b with
    | none => simp [List.foldl_cons, processBundle, ih, loadedObjects]
    | some objs =>
      rw [List.foldl_cons]
      show totalCount (bs.foldl _ (processBundle _ _ stats (some objs))) = _
      rw [ih, processBundle, totalCount_foldl_objects]
      simp [loadedObjects, List.countP_append]
      omega

theorem countP_not_eq_length_sub {α : Type} (p : α → Bool) (l : List α) :
    l.countP p = l.length - l.countP (fun a => ! p a) := by
  induction l with
  | nil => simp
  | cons a as ih =>
    by_cases h : p a <;>
      simp [List.countP_cons, h, ih] <;>
      have := List.countP_le_length (l := as) (p := fun a => ! p a) <;>
      omega

/-! ### C2 -/

/-- C2 counterexample.  A run requesting only `AnimationClip` (accepted: it
is in `SUPPORTED_TYPES`) over one bundle with one `AnimationClip` object
records no statistics increment at all, because `AnimationClip` has no
entry in `EXTRACTORS`: the total is 0, while the claim demands
N − (objects of unrequested type) = 1 − 0 = 1. -/
theorem c2_counterexample :
    parseExtractTypes (some ["AnimationClip"]) = ["AnimationClip"] ∧
    ("AnimationClip" ∈ parseExtractTypes (some ["AnimationClip"])) ∧
    (loadedObjects [some [⟨"AnimationClip", 1⟩]]).length = 1 ∧
    ((loadedObjects [some [⟨"AnimationClip", 1⟩]]).countP
      (fun o => decide (¬ o.typeName ∈ parseExtractTypes (some ["AnimationClip"])))) = 0 ∧
    totalCount (runExtraction (parseExtractTypes (some ["AnimationClip"]))
      (fun _ => .success) [some [⟨"AnimationClip", 1⟩]]) = 0 := by
  refine ⟨by decide, by decide, by decide, by decide, by rfl⟩

/-- C2 (amended): every object (of a successfully opened bundle) whose type
is in the requested set AND has a registered exporter yields exactly one
increment — its own type's bucket gains one success or one failure
according to the exporter outcome, every other bucket is unchanged, and the
grand total rises by one — while every other object leaves the statistics
untouched; consequently the sum of success and failure counts across all
types equals N minus the count of objects whose type was not requested or
had no registered exporter (`AnimationClip`/`MonoBehaviour` are requestable
but have no exporter). -/
theorem c2_stats_invariant (extractTypes : List String)
    (runE : AssetObject → ExportResult)
    (bundles : List (Option (List AssetObject))) :
    (∀ stats obj, matchesExtraction extractTypes obj = true →
      bucket (processObject extractTypes runE stats obj) obj.typeName
        = bumpSF (bucket stats obj.typeName) (runE obj == .success) ∧
      (∀ t, t ≠ obj.typeName →
        bucket (processObject extractTypes runE stats obj) t = bucket stats t) ∧
      totalCount (processObject extractTypes runE stats obj) = totalCount stats + 1) ∧
    (∀ stats obj, matchesExtraction extractTypes obj = false →
      processObject extractTypes runE stats obj = stats) ∧
    totalCount (runExtraction extractTypes runE bundles) =
      (loadedObjects bundles).length -
        (loadedObjects bundles).countP (fun o => ! matchesExtraction extractTypes o) := by
  refine ⟨?_, ?_, ?_⟩
  · intro stats obj h
    refine ⟨?_, ?_, ?_⟩
    · rw [processObject, if_pos h]
      cases hr : runE obj <;>
        simp [hr, bucket, lookup_statsAdd_self, beq_export_ss, beq_export_fs, beq_export_rs]
    · intro t ht
      rw [processObject, if_pos h]
      cases hr : runE obj <;> exact bucket_statsAdd_ne _ _ _ _ ht
    · rw [totalCount_processObject, if_pos h]
  · intro stats obj h
    rw [processObject, if_neg (by simp [h])]
  · rw [runExtraction, totalCount_foldl_bundles,
      countP_not_eq_length_sub (matchesExtraction extractTypes) (loadedObjects bundles)]
    simp [totalCount]

/-- C2 witness: the amended claim applied to a concrete run (default type
set, one bundle with a `Texture2D`, a `Shader` and a `Mesh` object, one
unreadable bundle), plus one concrete application of the per-object
increment part. -/
theorem c2_witness :
    (totalCount (runExtraction (parseExtractTypes none)
        (fun o => if o.pathId = 3 then .failure else .success)
        [some [⟨"Texture2D", 1⟩, ⟨"Shader", 2⟩], none, some [⟨"Mesh", 3⟩]]) =
      (loadedObjects [some [⟨"Texture2D", 1⟩, ⟨"Shader", 2⟩], none, some [⟨"Mesh", 3⟩]]).length -
        (loadedObjects [some [⟨"Texture2D", 1⟩, ⟨"Shader", 2⟩], none, some [⟨"Mesh", 3⟩]]).countP
          (fun o => ! matchesExtraction (parseExtractTypes none) o)) ∧
    totalCount (processObject (parseExtractTypes none)
        (fun o => if o.pathId = 3 then .failure else .success) [] ⟨"Texture2D", 1⟩) =
      totalCount ([] : Stats) + 1 :=
  ⟨(c2_stats_invariant (parseExtractTypes none) _ _).2.2,
   ((c2_stats_invariant (parseExtractTypes none)
      (fun o => if o.pathId = 3 then .failure else .success)
      [some [⟨"Texture2D", 1⟩, ⟨"Shader", 2⟩], none, some [⟨"Mesh", 3⟩]]).1
      [] ⟨"Texture2D", 1⟩ (by decide)).2.2⟩

/-! ## Command-line entry points and exit behaviour
(`extract_assets.py` lines 200-287, `strip_cfs.py` lines 110-144) -/

/-- The parsed arguments of `extract_assets.py` (lines 201-217): two
required positionals, an optional `--types` list.  (`--unity-version` only
configures the external parser and plays no role in control flow.) -/
structure ExtractArgs where
  bundle_dir : String
  output_dir : String
  types : Option (List String)
  deriving Repr

/-- `extract_assets.py main()` (lines 200-287): exit code and final
statistics.  `none` for the arguments models argparse failing on missing
required arguments, which exits with status 2 before anything runs.
Otherwise the function discovers bundles, runs the extraction loop and
falls off the end of `main` — exit status 0 — even when `find_bundles`
returned no files and even when objects failed to export. -/
def extract_assets_main (args : Option ExtractArgs) (files : List FileEntry)
    (load : FileEntry → Option (List AssetObject))
    (runE : AssetObject → ExportResult) : Nat × Stats :=
  match args with
  | none => (2, [])
  | some a =>
    let extractTypes := parseExtractTypes a.types
    let bundles := find_bundles files
    let stats := runExtraction extractTypes runE (bundles.map load)
    (0, stats)

/-- What `os.path.isfile` / `os.path.isdir` report for the input path of
`strip_cfs.py main()`. -/
inductive PathKind where
  | file
  | dir
  | missing
  deriving Repr, DecidableEq

/-- Exit code of `strip_cfs.py main()` (lines 110-144): status 1 when fewer
than two operands are given (line 116) or when the input path does not
exist (line 144).  In single-file mode (line 123) `strip_cfs_header` runs
with no `try` around it, so an exception it raises — `struct.error` on a
truncated magic-bearing input — escapes `main` and the interpreter exits
with status 1; when it returns normally the branch falls off the end of
`main` and exits 0.  In directory mode every per-file exception is caught
inside `process_directory` (lines 96-105) and only counted, so the branch
always exits 0 — even when the directory contained no files at all or some
files produced errors.  `fileBytes` is the input file's contents,
consulted only by the single-file branch. -/
def strip_cfs_main_exit (sha1 : List Nat → List Nat) (argcOk : Bool)
    (inputKind : PathKind) (fileBytes : List Nat) : Nat :=
  if argcOk then
    match inputKind with
    | .file =>
      match strip_cfs_header sha1 fileBytes with
      | .ok _ => 0
      | .error _ => 1
    | .dir => 0
    | .missing => 1
  else 1

/-! ### C4 -/

/-- C4 counterexample.  With both required arguments present and a bundle
directory whose recursive listing is empty, `find_bundles` returns no
candidates, yet `extract_assets.py` prints "Found 0 bundle files", runs an
empty loop and exits 0 — not non-zero as the claim requires. -/
theorem c4_counterexample :
    find_bundles [] = [] ∧
    (extract_assets_main (some ⟨"in", "out", none⟩) [] (fun _ => none)
      (fun _ => .success)).1 = 0 := by
  exact ⟨rfl, rfl⟩

/-- C4 (amended): the extraction process exits non-zero exactly when
required arguments are missing (argparse status 2); the normalizer exits
non-zero when operands are missing, when the input path does not exist, or
— in single-file mode — when `strip_cfs_header` raises (a truncated
magic-bearing input), the exception escaping `main` uncaught (status 1);
in every other case — including runs that discover zero candidate bundle
files, runs in which objects failed to export, and directory-mode runs
whose per-file errors are all caught — the exit status is 0. -/
theorem c4_exit_codes (sha1 : List Nat → List Nat) (files : List FileEntry)
    (load : FileEntry → Option (List AssetObject))
    (runE : AssetObject → ExportResult) (bytes : List Nat) :
    (extract_assets_main none files load runE).1 = 2 ∧
    (∀ a, (extract_assets_main (some a) files load runE).1 = 0) ∧
    (∀ k b, strip_cfs_main_exit sha1 false k b = 1) ∧
    (∀ b, strip_cfs_main_exit sha1 true .missing b = 1) ∧
    (∀ r, strip_cfs_header sha1 bytes = .ok r →
      strip_cfs_main_exit sha1 true .file bytes = 0) ∧
    (strip_cfs_header sha1 bytes = .error () →
      strip_cfs_main_exit sha1 true .file bytes = 1) ∧
    (∀ b, strip_cfs_main_exit sha1 true .dir b = 0) :=
  ⟨rfl, fun _ => rfl, fun k _ => by cases k <;> rfl, fun _ => rfl,
   fun r hr => by simp [strip_cfs_main_exit, hr],
   fun he => by simp [strip_cfs_main_exit, he],
   fun _ => rfl⟩

/-- C4 witness: the amended exit behaviour at concrete runs — missing
arguments exit 2, a run discovering zero bundles with a failing exporter
exits 0, missing operands exit 1, a well-formed single file exits 0, and
an 11-byte truncated CFS input makes the single-file branch exit 1. -/
theorem c4_witness :
    (extract_assets_main none [] (fun _ => none) (fun _ => .failure)).1 = 2 ∧
    (extract_assets_main (some ⟨"in", "out", none⟩) [] (fun _ => none)
      (fun _ => .failure)).1 = 0 ∧
    strip_cfs_main_exit sha1const false .dir [] = 1 ∧
    strip_cfs_main_exit sha1const true .file [1, 2, 3] = 0 ∧
    strip_cfs_main_exit sha1const true .file (CFS_MAGIC ++ [0, 0, 0]) = 1 ∧
    strip_cfs_main_exit sha1const true .dir [] = 0 :=
  ⟨(c4_exit_codes sha1const [] (fun _ => none) (fun _ => .failure) []).1,
   (c4_exit_codes sha1const [] (fun _ => none) (fun _ => .failure) []).2.1
     ⟨"in", "out", none⟩,
   (c4_exit_codes sha1const [] (fun _ => none) (fun _ => .failure) []).2.2.1 .dir [],
   (c4_exit_codes sha1const [] (fun _ => none) (fun _ => .failure) [1, 2, 3]).2.2.2.2.1
     ⟨false, [1, 2, 3], false, false⟩ (by rfl),
   (c4_exit_codes sha1const [] (fun _ => none) (fun _ => .failure)
     (CFS_MAGIC ++ [0, 0, 0])).2.2.2.2.2.1 (by rfl),
   (c4_exit_codes sha1const [] (fun _ => none) (fun _ => .failure) []).2.2.2.2.2.2 []⟩

/-! ## Type exporters (`extract_assets.py` lines 40-78) -/

/-- Contents of one written output file. -/
inductive FileData where
  | image (content : Nat)
  | text (s : String)
  deriving Repr, DecidableEq

/-- The output filesystem: an association list from path to contents;
`List.lookup` finds the most recent write, so prepending models
create-or-overwrite. -/
abbrev FS := List (String × FileData)

/-- `os.path.exists(outpath)`. -/
def fsExists (fs : FS) (p : String) : Bool := (fs.lookup p).isSome

/-- An atomic create-or-overwrite write (`img.save(outpath)` /
`open(outpath, "w").write(...)`). -/
def fsWrite (fs : FS) (p : String) (d : FileData) : FS := (p, d) :: fs

/-- `safe_filename(name)` (extract_assets.py lines 40-42): every character
outside alphanumerics, `.`, `_`, `-` is replaced by `_`. -/
def safe_filename (name : String) : String :=
  String.mk (name.data.map fun c =>
    if c.isAlphanum || c ∈ ['.', '_', '-'] then c else '_')

/-- A decoded PIL image handle: `img.size` and the pixel payload that
`img.save` would serialize. -/
structure PILImage where
  width : Nat
  height : Nat
  content : Nat
  deriving Repr, DecidableEq

/-- The fields of a materialized `Texture2D`: name, declared dimensions,
and the decoded image (`none` models both a falsy `data.image` and a
decode failure raising inside the `try`, which behave identically:
no write, return `False`). -/
structure Texture2DData where
  m_Name : String
  m_Width : Nat
  m_Height : Nat
  image : Option PILImage
  deriving Repr, DecidableEq

/-- A `Texture2D` object handle: `obj.path_id` plus the outcome of
`obj.read()` (which can raise — and does so outside the exporter's `try`
block). -/
structure Texture2DObject where
  path_id : Int
  read : Except Unit Texture2DData

/-- `os.path.join(output_dir, name)` with POSIX separator. -/
def pyJoin (dir name : String) : String := dir ++ "/" ++ name

/-- The fallback name `data.m_Name or f"texture_{obj.path_id}"`
(extract_assets.py line 51). -/
def texEffectiveName (obj : Texture2DObject) (data : Texture2DData) : String :=
  if data.m_Name = "" then "texture_" ++ toString obj.path_id else data.m_Name

/-- `f"{name}_{w}x{h}.png"` under `output_dir` (line 52). -/
def texOutPath (dir name : String) (w h : Nat) : String :=
  pyJoin dir (name ++ "_" ++ toString w ++ "x" ++ toString h ++ ".png")

/-- `f"{name}_{w}x{h}_{path_id}.png"` under `output_dir` (line 55). -/
def texOutPathId (dir name : String) (w h : Nat) (pid : Int) : String :=
  pyJoin dir (name ++ "_" ++ toString w ++ "x" ++ toString h ++ "_" ++ toString pid ++ ".png")

/-- `extract_texture2d(obj, output_dir)` (extract_assets.py lines 45-60).
`obj.read()` happens before the `try`, so its exception propagates
(`.error`); inside the `try`, a falsy or zero-dimension image returns
`False` without writing; otherwise the PNG is saved at the collision-safe
path and `True` is returned. -/
def extract_texture2d (obj : Texture2DObject) (output_dir : String) (fs : FS) :
    Except Unit Bool × FS :=
  match obj.read with
  | .error e => (.error e, fs)
  | .ok data =>
    match data.image with
    | none => (.ok false, fs)
    | some img =>
      if 0 < img.width ∧ 0 < img.height then
        let name := safe_filename (texEffectiveName obj data)
        let outpath := texOutPath output_dir name data.m_Width data.m_Height
        let outpath :=
          if fsExists fs outpath then
            texOutPathId output_dir name data.m_Width data.m_Height obj.path_id
          else outpath
        (.ok true, fsWrite fs outpath (.image img.content))
      else (.ok false, fs)

/-- The fields of a materialized `Mesh`: name plus the outcome of
`data.export()` (OBJ text, possibly empty; `.error` models the export
raising inside the `try`). -/
structure MeshData where
  m_Name : String
  exportText : Except Unit String
  deriving Repr

/-- A `Mesh` object handle, like `Texture2DObject`. -/
structure MeshObject where
  path_id : Int
  read : Except Unit MeshData

/-- `extract_mesh(obj, output_dir)` (extract_assets.py lines 63-78).
`obj.read()` is before the `try`; the collision-safe path is computed, then
`data.export()` runs: a raise is caught (return `False`), empty text writes
nothing (return `False`), non-empty text is written (return `True`). -/
def extract_mesh (obj : MeshObject) (output_dir : String) (fs : FS) :
    Except Unit Bool × FS :=
  match obj.read with
  | .error e => (.error e, fs)
  | .ok data =>
    let name := safe_filename
      (if data.m_Name = "" then "mesh_" ++ toString obj.path_id else data.m_Name)
    let outpath := pyJoin output_dir (name ++ ".obj")
    let outpath :=
      if fsExists fs outpath then
        pyJoin output_dir (name ++ "_" ++ toString obj.path_id ++ ".obj")
      else outpath
    match data.exportText with
    | .error _ => (.ok false, fs)
    | .ok txt => if txt ≠ "" then (.ok true, fsWrite fs outpath (.text txt)) else (.ok false, fs)

theorem texOutPath_ne_texOutPathId (dir name : String) (w h : Nat) (pid : Int) :
    texOutPath dir name w h ≠ texOutPathId dir name w h pid := by
  intro hEq
  have hd := congrArg String.data hEq
  simp only [texOutPath, texOutPathId, pyJoin, String.data_append, List.append_assoc] at hd
  have h1 := List.append_cancel_left hd
  have h2 := List.append_cancel_left h1
  have h3 := List.append_cancel_left h2
  have h4 := List.append_cancel_left h3
  have h5 := List.append_cancel_left h4
  have h6 := List.append_cancel_left h5
  have h7 := List.append_cancel_left h6
  simp at h7

theorem fsExists_fsWrite_self (fs : FS) (p : String) (d : FileData) :
    fsExists (fsWrite fs p d) p = true := by
  simp [fsExists, fsWrite, List.lookup]

/-! ### C6 -/

/-- C6: two `Texture2D` objects with the same sanitized base name and the
same declared dimensions, exported in sequence into a directory where that
base path is initially absent: the first export writes the plain
`name_WxH.png` path and the second, finding it taken, re-derives
`name_WxH_<path_id>.png`; the two paths are distinct strings and after
both writes each path holds its own object's pixels. -/
theorem c6_collision_rederives (o1 o2 : Texture2DObject) (dir : String) (fs0 : FS)
    (d1 d2 : Texture2DData) (i1 i2 : PILImage)
    (h1 : o1.read = .ok d1) (h2 : o2.read = .ok d2)
    (hi1 : d1.image = some i1) (hi2 : d2.image = some i2)
    (hpos1 : 0 < i1.width ∧ 0 < i1.height) (hpos2 : 0 < i2.width ∧ 0 < i2.height)
    (hname : safe_filename (texEffectiveName o2 d2) = safe_filename (texEffectiveName o1 d1))
    (hw : d2.m_Width = d1.m_Width) (hh : d2.m_Height = d1.m_Height)
    (hfresh : fsExists fs0 (texOutPath dir (safe_filename (texEffectiveName o1 d1))
        d1.m_Width d1.m_Height) = false) :
    ∃ p1 p2,
      p1 = texOutPath dir (safe_filename (texEffectiveName o1 d1)) d1.m_Width d1.m_Height ∧
      p2 = texOutPathId dir (safe_filename (texEffectiveName o1 d1)) d1.m_Width d1.m_Height
        o2.path_id ∧
      extract_texture2d o1 dir fs0 = (.ok true, fsWrite fs0 p1 (.image i1.content)) ∧
      extract_texture2d o2 dir (fsWrite fs0 p1 (.image i1.content)) =
        (.ok true, fsWrite (fsWrite fs0 p1 (.image i1.content)) p2 (.image i2.content)) ∧
      p1 ≠ p2 ∧
      (fsWrite (fsWrite fs0 p1 (.image i1.content)) p2 (.image i2.content)).lookup p1
        = some (.image i1.content) ∧
      (fsWrite (fsWrite fs0 p1 (.image i1.content)) p2 (.image i2.content)).lookup p2
        = some (.image i2.content) := by
  have hne := texOutPath_ne_texOutPathId dir (safe_filename (texEffectiveName o1 d1))
    d1.m_Width d1.m_Height o2.path_id
  refine ⟨_, _, rfl, rfl, ?_, ?_, hne, ?_, ?_⟩
  · simp [extract_texture2d, h1, hi1, hpos1.1, hpos1.2, hfresh]
  · simp [extract_texture2d, h2, hi2, hpos2.1, hpos2.2, hname, hw, hh,
      fsExists_fsWrite_self]
  · simp [fsWrite, List.lookup, beq_eq_false_iff_ne.mpr hne]
  · simp [fsWrite, List.lookup]

/-- C6 witness: two 32×32 textures both named `icon` (path ids 1 and 2)
exported into an empty output directory. -/
theorem c6_witness :
    ∃ p1 p2,
      p1 = texOutPath "out"
        (safe_filename (texEffectiveName ⟨1, .ok ⟨"icon", 32, 32, some ⟨32, 32, 7⟩⟩⟩
          ⟨"icon", 32, 32, some ⟨32, 32, 7⟩⟩)) 32 32 ∧
      p2 = texOutPathId "out"
        (safe_filename (texEffectiveName ⟨1, .ok ⟨"icon", 32, 32, some ⟨32, 32, 7⟩⟩⟩
          ⟨"icon", 32, 32, some ⟨32, 32, 7⟩⟩)) 32 32
        (⟨2, .ok ⟨"icon", 32, 32, some ⟨32, 32, 9⟩⟩⟩ : Texture2DObject).path_id ∧
      extract_texture2d ⟨1, .ok ⟨"icon", 32, 32, some ⟨32, 32, 7⟩⟩⟩ "out" [] =
        (.ok true, fsWrite [] p1 (.image 7)) ∧
      extract_texture2d ⟨2, .ok ⟨"icon", 32, 32, some ⟨32, 32, 9⟩⟩⟩ "out"
          (fsWrite [] p1 (.image 7)) =
        (.ok true, fsWrite (fsWrite [] p1 (.image 7)) p2 (.image 9)) ∧
      p1 ≠ p2 ∧
      (fsWrite (fsWrite [] p1 (.image 7)) p2 (.image 9)).lookup p1 = some (.image 7) ∧
      (fsWrite (fsWrite [] p1 (.image 7)) p2 (.image 9)).lookup p2 = some (.image 9) :=
  c6_collision_rederives ⟨1, .ok ⟨"icon", 32, 32, some ⟨32, 32, 7⟩⟩⟩
    ⟨2, .ok ⟨"icon", 32, 32, some ⟨32, 32, 9⟩⟩⟩ "out" []
    ⟨"icon", 32, 32, some ⟨32, 32, 7⟩⟩ ⟨"icon", 32, 32, some ⟨32, 32, 9⟩⟩
    ⟨32, 32, 7⟩ ⟨32, 32, 9⟩ rfl rfl rfl rfl
    (by decide) (by decide) rfl rfl rfl rfl

/-! ### C7 -/

/-- C7 counterexample.  The claim "on every failed export the exporter
returns false" fails for a `Texture2D` object whose `read()` raises:
`data = obj.read()` sits before the `try` block (extract_assets.py line
47), so the exception propagates out of the exporter instead of a `False`
return (the engine then counts it as a failure at lines 263-264); the
filesystem is still untouched. -/
theorem c7_counterexample :
    (extract_texture2d ⟨1, .error ()⟩ "out" []).1 = .error () ∧
    ¬ (extract_texture2d ⟨1, .error ()⟩ "out" []).1 = .ok false ∧
    (extract_texture2d ⟨1, .error ()⟩ "out" []).2 = [] := by
  refine ⟨rfl, ?_, rfl⟩
  intro h
  simp [extract_texture2d] at h

/-- C7 (amended): whenever a texture or mesh export does not succeed, the
filesystem is left exactly as it was — no partial, truncated or zero-byte
output file is created — and the exporter returns `False`, except that an
exception raised by `obj.read()` itself (which sits before the `try`
block) propagates out unchanged instead of producing a `False` return;
every non-read failure (falsy image, zero-dimension image, mesh export
raising, empty mesh text) is a `False` return. -/
theorem c7_failure_false_fs_unchanged (tobj : Texture2DObject) (mobj : MeshObject)
    (dir : String) (fs : FS) :
    ((extract_texture2d tobj dir fs).1 ≠ .ok true →
      (extract_texture2d tobj dir fs).2 = fs ∧
      ((extract_texture2d tobj dir fs).1 = .ok false ∨
        ∃ e, tobj.read = .error e ∧ (extract_texture2d tobj dir fs).1 = .error e)) ∧
    ((extract_mesh mobj dir fs).1 ≠ .ok true →
      (extract_mesh mobj dir fs).2 = fs ∧
      ((extract_mesh mobj dir fs).1 = .ok false ∨
        ∃ e, mobj.read = .error e ∧ (extract_mesh mobj dir fs).1 = .error e)) := by
  constructor
  · intro hfail
    cases hr : tobj.read with
    | error e =>
      exact ⟨by simp [extract_texture2d, hr], .inr ⟨e, rfl, by simp [extract_texture2d, hr]⟩⟩
    | ok data =>
      cases hi : data.image with
      | none => exact ⟨by simp [extract_texture2d, hr, hi], .inl (by simp [extract_texture2d, hr, hi])⟩
      | some img =>
        by_cases hp : 0 < img.width ∧ 0 < img.height
        · exact absurd (by simp [extract_texture2d, hr, hi, hp]) hfail
        · exact ⟨by simp [extract_texture2d, hr, hi, hp],
            .inl (by simp [extract_texture2d, hr, hi, hp])⟩
  · intro hfail
    cases hr : mobj.read with
    | error e =>
      exact ⟨by simp [extract_mesh, hr], .inr ⟨e, rfl, by simp [extract_mesh, hr]⟩⟩
    | ok data =>
      cases he : data.exportText with
      | error e => exact ⟨by simp [extract_mesh, hr, he], .inl (by simp [extract_mesh, hr, he])⟩
      | ok txt =>
        by_cases ht : txt = ""
        · exact ⟨by simp [extract_mesh, hr, he, ht], .inl (by simp [extract_mesh, hr, he, ht])⟩
        · exact absurd (by simp [extract_mesh, hr, he, ht]) hfail

/-- C7 witness: a texture whose decoded image is falsy and a mesh whose
OBJ export is empty both fail, return `False`, and leave the (empty)
output directory empty. -/
theorem c7_witness :
    ((extract_texture2d ⟨1, .ok ⟨"t", 4, 4, none⟩⟩ "out" []).2 = ([] : FS) ∧
      ((extract_texture2d ⟨1, .ok ⟨"t", 4, 4, none⟩⟩ "out" []).1 = .ok false ∨
        ∃ e, (⟨1, .ok ⟨"t", 4, 4, none⟩⟩ : Texture2DObject).read = .error e ∧
          (extract_texture2d ⟨1, .ok ⟨"t", 4, 4, none⟩⟩ "out" []).1 = .error e)) ∧
    ((extract_mesh ⟨2, .ok ⟨"m", .ok ""⟩⟩ "out" []).2 = ([] : FS) ∧
      ((extract_mesh ⟨2, .ok ⟨"m", .ok ""⟩⟩ "out" []).1 = .ok false ∨
        ∃ e, (⟨2, .ok ⟨"m", .ok ""⟩⟩ : MeshObject).read = .error e ∧
          (extract_mesh ⟨2, .ok ⟨"m", .ok ""⟩⟩ "out" []).1 = .error e)) :=
  ⟨(c7_failure_false_fs_unchanged ⟨1, .ok ⟨"t", 4, 4, none⟩⟩ ⟨2, .ok ⟨"m", .ok ""⟩⟩
      "out" []).1 (by simp [extract_texture2d]),
   (c7_failure_false_fs_unchanged ⟨1, .ok ⟨"t", 4, 4, none⟩⟩ ⟨2, .ok ⟨"m", .ok ""⟩⟩
      "out" []).2 (by simp [extract_mesh])⟩

/-! ## Texture-only extraction tool (`extract_textures.py` lines 69-107) -/

/-- The three counters of `extract_textures.py main()`:
`extracted`, `failed`, `skipped`. -/
structure TexturesCounters where
  extracted : Nat
  failed : Nat
  skipped : Nat
  deriving Repr, DecidableEq

/-- The body of the per-object loop of `extract_textures.py` (lines
80-107) for one `Texture2D` object: a raising `read()` is caught and
counted failed; with `--min-size` positive, a texture with BOTH dimensions
strictly below the minimum is counted skipped and `continue`d before any
decode or write; otherwise the image is decoded and saved at the
collision-safe path (counted extracted) or counted failed. -/
def textures_process_obj (min_size : Nat) (output_dir : String)
    (c : TexturesCounters) (fs : FS) (obj : Texture2DObject) :
    TexturesCounters × FS :=
  match obj.read with
  | .error _ => ({c with failed := c.failed + 1}, fs)
  | .ok data =>
    if 0 < min_size ∧ data.m_Width < min_size ∧ data.m_Height < min_size then
      ({c with skipped := c.skipped + 1}, fs)
    else
      match data.image with
      | none => ({c with failed := c.failed + 1}, fs)
      | some img =>
        if 0 < img.width ∧ 0 < img.height then
          let name := safe_filename (texEffectiveName obj data)
          let outpath := texOutPath output_dir name data.m_Width data.m_Height
          let outpath :=
            if fsExists fs outpath then
              texOutPathId output_dir name data.m_Width data.m_Height obj.path_id
            else outpath
          ({c with extracted := c.extracted + 1}, fsWrite fs outpath (.image img.content))
        else ({c with failed := c.failed + 1}, fs)

/-! ### C10 -/

/-- C10: with a positive `--min-size`, a readable `Texture2D` object is
skipped exactly when both `m_Width` and `m_Height` are strictly below the
minimum (one large dimension is enough to proceed to export), and a
skipped object increments neither the extracted nor the failed counter and
writes nothing. -/
theorem c10_min_size_skip (min_size : Nat) (hmin : 0 < min_size)
    (output_dir : String) (c : TexturesCounters) (fs : FS)
    (obj : Texture2DObject) (data : Texture2DData) (hr : obj.read = .ok data) :
    ((textures_process_obj min_size output_dir c fs obj).1.skipped = c.skipped + 1 ↔
      (data.m_Width < min_size ∧ data.m_Height < min_size)) ∧
    (data.m_Width < min_size ∧ data.m_Height < min_size →
      textures_process_obj min_size output_dir c fs obj =
        ({c with skipped := c.skipped + 1}, fs)) := by
  by_cases hs : data.m_Width < min_size ∧ data.m_Height < min_size
  · constructor
    · simp [textures_process_obj, hr, hmin, hs.1, hs.2]
    · intro _
      simp [textures_process_obj, hr, hmin, hs.1, hs.2]
  · have hcond : ¬ (0 < min_size ∧ data.m_Width < min_size ∧ data.m_Height < min_size) := by
      intro h
      exact hs ⟨h.2.1, h.2.2⟩
    constructor
    · rw [textures_process_obj]
      simp only [hr, hcond, if_false]
      constructor
      · intro hskip
        exfalso
        cases hi : data.image with
        | none => simp [hi] at hskip
        | some img =>
          by_cases hp : 0 < img.width ∧ 0 < img.height <;> simp [hi, hp] at hskip
      · intro h
        exact absurd h hs
    · intro h
      exact absurd h hs

/-- C10 witness: with `--min-size 2`, a 1×5 texture (only the width below
the minimum) is not skipped, and a 1×1 texture is skipped with the
extracted/failed counters and the filesystem untouched. -/
theorem c10_witness :
    (¬ (textures_process_obj 2 "out" ⟨0, 0, 0⟩ []
        ⟨1, .ok ⟨"a", 1, 5, some ⟨1, 5, 3⟩⟩⟩).1.skipped = 0 + 1) ∧
    textures_process_obj 2 "out" ⟨0, 0, 0⟩ [] ⟨2, .ok ⟨"b", 1, 1, some ⟨1, 1, 4⟩⟩⟩ =
      (⟨0, 0, 1⟩, []) := by
  constructor
  · intro hskip
    have := ((c10_min_size_skip 2 (by decide) "out" ⟨0, 0, 0⟩ []
      ⟨1, .ok ⟨"a", 1, 5, some ⟨1, 5, 3⟩⟩⟩ ⟨"a", 1, 5, some ⟨1, 5, 3⟩⟩ rfl).1).mp hskip
    exact absurd this.2 (by decide)
  · have := (c10_min_size_skip 2 (by decide) "out" ⟨0, 0, 0⟩ []
      ⟨2, .ok ⟨"b", 1, 1, some ⟨1, 1, 4⟩⟩⟩ ⟨"b", 1, 1, some ⟨1, 1, 4⟩⟩ rfl).2
      ⟨by decide, by decide⟩
    simpa using this

end UnityExtract
